import Mathlib

/-!
Verification development for the screener repository: the financial-data
resolution cascade (`fetcher.py`), its data-quality gate, the Piotroski
signal deriver (`parser.py`) and the score aggregation
(`data_fetcher_fscore.py`), shallowly embedded in Lean 4.

Numeric values (Python floats) are modelled as rationals `ℚ`; scraped
dictionaries, whose keys may be absent, are modelled with `Option ℚ`
fields; a Python function that can raise is modelled as returning an
`Option`.
-/

namespace Screener

/-- `FinancialData` from `models.py`: financial data for one company,
current and previous year values for nine metrics.  The provenance
strings that `fetcher.py` also attaches (`source_url`, `report_date`,
`data_collected_at`) are pure metadata, read by no gate, parser or score
code, and are omitted from the embedding. -/
structure FinancialData where
  revenue_cur : ℚ
  revenue_prev : ℚ
  net_income_cur : ℚ
  net_income_prev : ℚ
  cfo_cur : ℚ
  cfo_prev : ℚ
  total_assets_cur : ℚ
  total_assets_prev : ℚ
  long_term_debt_cur : ℚ
  long_term_debt_prev : ℚ
  current_assets_cur : ℚ
  current_assets_prev : ℚ
  current_liabilities_cur : ℚ
  current_liabilities_prev : ℚ
  cogs_cur : ℚ
  cogs_prev : ℚ
  shares_cur : ℚ
  shares_prev : ℚ
  deriving DecidableEq, Repr

/-- `ParseOptions` from `models.py`: configuration flags for
`parse_financials`, with the dataclass defaults. -/
structure ParseOptions where
  leverage_use_ratio : Bool := true
  share_change_threshold : ℚ := 0
  asset_turnover_override : Option Bool := none
  deriving DecidableEq, Repr

/-- The helper nested in `parse_financials` (parser.py): division that
yields 0 when the denominator is 0. -/
def safe_div (numerator denominator : ℚ) : ℚ :=
  if denominator ≠ 0 then numerator / denominator else 0

/-- Local value `roa_cur` of `parse_financials`. -/
def roa_cur (raw : FinancialData) : ℚ :=
  safe_div raw.net_income_cur raw.total_assets_cur

/-- Local value `roa_prev` of `parse_financials`. -/
def roa_prev (raw : FinancialData) : ℚ :=
  safe_div raw.net_income_prev raw.total_assets_prev

/-- Local value `ratio_cur` of `parse_financials` (leverage branch). -/
def ratio_cur (raw : FinancialData) : ℚ :=
  safe_div raw.long_term_debt_cur raw.total_assets_cur

/-- Local value `ratio_prev` of `parse_financials` (leverage branch). -/
def ratio_prev (raw : FinancialData) : ℚ :=
  safe_div raw.long_term_debt_prev raw.total_assets_prev

/-- Local value `current_ratio_cur` of `parse_financials`. -/
def current_ratio_cur (raw : FinancialData) : ℚ :=
  safe_div raw.current_assets_cur raw.current_liabilities_cur

/-- Local value `current_ratio_prev` of `parse_financials`. -/
def current_ratio_prev (raw : FinancialData) : ℚ :=
  safe_div raw.current_assets_prev raw.current_liabilities_prev

/-- Local value `share_change_ratio` of `parse_financials`:
`safe_div(abs(share_delta), raw.shares_prev)`. -/
def share_change_ratio (raw : FinancialData) : ℚ :=
  safe_div |raw.shares_cur - raw.shares_prev| raw.shares_prev

/-- Local value `gross_margin_cur` of `parse_financials`. -/
def gross_margin_cur (raw : FinancialData) : ℚ :=
  safe_div (raw.revenue_cur - raw.cogs_cur) raw.revenue_cur

/-- Local value `gross_margin_prev` of `parse_financials`. -/
def gross_margin_prev (raw : FinancialData) : ℚ :=
  safe_div (raw.revenue_prev - raw.cogs_prev) raw.revenue_prev

/-- Local value `asset_turnover_cur` of `parse_financials`. -/
def asset_turnover_cur (raw : FinancialData) : ℚ :=
  safe_div raw.revenue_cur raw.total_assets_cur

/-- Local value `asset_turnover_prev` of `parse_financials`. -/
def asset_turnover_prev (raw : FinancialData) : ℚ :=
  safe_div raw.revenue_prev raw.total_assets_prev

/-- The dictionary returned by `parse_financials`: one boolean per
Piotroski signal, keys fixed and exhaustive. -/
structure SignalVector where
  roa_positive : Bool
  cfo_positive : Bool
  roa_improved : Bool
  accrual_positive : Bool
  leverage_decreased : Bool
  current_ratio_improved : Bool
  no_new_shares : Bool
  gross_margin_improved : Bool
  asset_turnover_improved : Bool
  deriving DecidableEq, Repr

/-- `parse_financials` from `parser.py`: derive the nine Piotroski
signals from raw financial data.  Total by construction (every branch
yields a value; division by zero is handled by `safe_div`). -/
def parse_financials (raw : FinancialData) (options : ParseOptions) : SignalVector :=
  let roa_positive := decide (roa_cur raw > 0)
  let roa_improved := decide (roa_cur raw > roa_prev raw)
  let cfo_positive := decide (raw.cfo_cur > 0)
  let accrual_positive := decide (raw.cfo_cur > raw.net_income_cur)
  let leverage_decreased :=
    if options.leverage_use_ratio then
      decide (ratio_cur raw < ratio_prev raw)
    else
      decide (raw.long_term_debt_cur < raw.long_term_debt_prev)
  let current_ratio_improved := decide (current_ratio_cur raw > current_ratio_prev raw)
  let share_delta := raw.shares_cur - raw.shares_prev
  let no_new_shares :=
    decide (share_delta ≤ 0 ∨ share_change_ratio raw ≤ options.share_change_threshold)
  let gross_margin_improved := decide (gross_margin_cur raw > gross_margin_prev raw)
  let asset_turnover_improved :=
    match options.asset_turnover_override with
    | some b => b
    | none => decide (asset_turnover_cur raw > asset_turnover_prev raw)
  { roa_positive := roa_positive
    cfo_positive := cfo_positive
    roa_improved := roa_improved
    accrual_positive := accrual_positive
    leverage_decreased := leverage_decreased
    current_ratio_improved := current_ratio_improved
    no_new_shares := no_new_shares
    gross_margin_improved := gross_margin_improved
    asset_turnover_improved := asset_turnover_improved }

/-- The values of the metrics dictionary, in the insertion order of the
dict literal returned by `parse_financials`. -/
def signalValues (m : SignalVector) : List Bool :=
  [m.roa_positive, m.cfo_positive, m.roa_improved, m.accrual_positive,
   m.leverage_decreased, m.current_ratio_improved, m.no_new_shares,
   m.gross_margin_improved, m.asset_turnover_improved]

/-- `compute_fscore` from `data_fetcher_fscore.py`:
`sum(bool(v) for v in metrics.values())`. -/
def compute_fscore (metrics : SignalVector) : ℕ :=
  ((signalValues metrics).map (fun v => v.toNat)).sum

/-! ## The scraped data dictionary and the quality gate (fetcher.py) -/

/-- The dictionary a source adapter returns in `fetcher.py`: numeric
fields may be absent (`none`); the adapters never insert `None` for a
numeric key, so `Option ℚ` captures exactly present-vs-missing.  The
string keys (`source_url`, `data_collected_at`, `report_date`) are
metadata read by no decision code and are omitted. -/
structure ScrapedData where
  revenue_cur : Option ℚ := none
  revenue_prev : Option ℚ := none
  net_income_cur : Option ℚ := none
  net_income_prev : Option ℚ := none
  cfo_cur : Option ℚ := none
  cfo_prev : Option ℚ := none
  total_assets_cur : Option ℚ := none
  total_assets_prev : Option ℚ := none
  long_term_debt_cur : Option ℚ := none
  long_term_debt_prev : Option ℚ := none
  current_assets_cur : Option ℚ := none
  current_assets_prev : Option ℚ := none
  current_liabilities_cur : Option ℚ := none
  current_liabilities_prev : Option ℚ := none
  cogs_cur : Option ℚ := none
  cogs_prev : Option ℚ := none
  shares_cur : Option ℚ := none
  shares_prev : Option ℚ := none
  deriving DecidableEq, Repr

/-- The `critical_fields` list of `_is_data_sufficient`, as the values
`data.get(field, 0)` reads (absent key reads as 0). -/
def criticalFieldValues (data : ScrapedData) : List ℚ :=
  [data.revenue_cur.getD 0, data.revenue_prev.getD 0,
   data.net_income_cur.getD 0, data.net_income_prev.getD 0,
   data.cfo_cur.getD 0, data.cfo_prev.getD 0,
   data.total_assets_cur.getD 0, data.total_assets_prev.getD 0]

/-- Local counter `missing_critical` of `_is_data_sufficient`: the
number of critical fields whose read value is zero (an absent key reads
as 0, so missing fields are counted too). -/
def missing_critical (data : ScrapedData) : ℕ :=
  (criticalFieldValues data).countP (fun v => v = 0)

/-- First sanity check of `_is_data_sufficient`:
`revenue_cur > 0 and revenue_cur < 10 and abs(net_income_cur) > revenue_cur * 2`. -/
def small_revenue_mismatch (data : ScrapedData) : Bool :=
  let revenue_cur := data.revenue_cur.getD 0
  let net_income_cur := data.net_income_cur.getD 0
  decide (revenue_cur > 0 ∧ revenue_cur < 10 ∧ |net_income_cur| > revenue_cur * 2)

/-- Second sanity check of `_is_data_sufficient`:
`revenue_cur > 0 and total_assets_cur > 0 and total_assets_cur < revenue_cur * 0.1`. -/
def assets_too_small (data : ScrapedData) : Bool :=
  let revenue_cur := data.revenue_cur.getD 0
  let total_assets_cur := data.total_assets_cur.getD 0
  decide (revenue_cur > 0 ∧ total_assets_cur > 0 ∧ total_assets_cur < revenue_cur * (1 / 10))

/-- Third sanity check of `_is_data_sufficient`:
`revenue_cur > 1000 and cfo_cur == 0`. -/
def missing_cfo_large_company (data : ScrapedData) : Bool :=
  let revenue_cur := data.revenue_cur.getD 0
  let cfo_cur := data.cfo_cur.getD 0
  decide (revenue_cur > 1000 ∧ cfo_cur = 0)

/-- `_is_data_sufficient` from `fetcher.py`: the quality gate applied to
StockAnalysis.com candidates.  Rejects when more than 2 of the 8
critical fields are zero/missing, then applies the three sanity checks
in source order; any firing check rejects. -/
def is_data_sufficient (data : ScrapedData) : Bool :=
  if missing_critical data > 2 then false
  else if small_revenue_mismatch data then false
  else if assets_too_small data then false
  else if missing_cfo_large_company data then false
  else true

/-- `_fill_missing_data` from `fetcher.py`: set defaults for missing
fields.  The defaults dict covers every numeric field except the
revenue and net-income pairs, which stay as they are. -/
def fill_missing_data (data : ScrapedData) : ScrapedData :=
  { data with
    total_assets_cur := some (data.total_assets_cur.getD 0)
    total_assets_prev := some (data.total_assets_prev.getD 0)
    cfo_cur := some (data.cfo_cur.getD 0)
    cfo_prev := some (data.cfo_prev.getD 0)
    long_term_debt_cur := some (data.long_term_debt_cur.getD 0)
    long_term_debt_prev := some (data.long_term_debt_prev.getD 0)
    current_assets_cur := some (data.current_assets_cur.getD 0)
    current_assets_prev := some (data.current_assets_prev.getD 0)
    current_liabilities_cur := some (data.current_liabilities_cur.getD 0)
    current_liabilities_prev := some (data.current_liabilities_prev.getD 0)
    cogs_cur := some (data.cogs_cur.getD 0)
    cogs_prev := some (data.cogs_prev.getD 0)
    shares_cur := some (data.shares_cur.getD 1000000)
    shares_prev := some (data.shares_prev.getD 1000000) }

/-- `FinancialData(**scraped_data)`: constructing the dataclass from the
dict succeeds only when every numeric field is present (a missing field
is a `TypeError`, modelled as `none`). -/
def toFinancialData (d : ScrapedData) : Option FinancialData :=
  match d.revenue_cur, d.revenue_prev, d.net_income_cur, d.net_income_prev,
        d.cfo_cur, d.cfo_prev, d.total_assets_cur, d.total_assets_prev,
        d.long_term_debt_cur, d.long_term_debt_prev,
        d.current_assets_cur, d.current_assets_prev,
        d.current_liabilities_cur, d.current_liabilities_prev,
        d.cogs_cur, d.cogs_prev, d.shares_cur, d.shares_prev with
  | some rc, some rp, some nc, some np, some cc, some cp, some tc, some tp,
    some lc, some lp, some cac, some cap, some clc, some clp,
    some gc, some gp, some sc, some sp =>
      some ⟨rc, rp, nc, np, cc, cp, tc, tp, lc, lp, cac, cap, clc, clp, gc, gp, sc, sp⟩
  | _, _, _, _, _, _, _, _, _, _, _, _, _, _, _, _, _, _ => none

/-! ## The hardcoded fallback table (test_data.py) -/

/-- Python `str.lower()`, character-wise (all company names involved
are ASCII). -/
def py_lower (s : String) : String := ⟨s.data.map Char.toLower⟩

/-- Python `str.strip()`: drop leading and trailing whitespace. -/
def py_strip (s : String) : String :=
  ⟨((s.data.dropWhile (fun c => c ∈ [' ', '\t', '\n', '\r'])).reverse.dropWhile
      (fun c => c ∈ [' ', '\t', '\n', '\r'])).reverse⟩

/-- Python `str.replace(' ', '_')`: single-character pattern, so
character-wise mapping. -/
def py_replace_space (s : String) : String :=
  ⟨s.data.map (fun c => if c = ' ' then '_' else c)⟩

/-- Hardcoded record for Intellego Technologies in
`get_test_financial_data`. -/
def intellegoData : FinancialData :=
  { revenue_cur := 265281, revenue_prev := 186493
    net_income_cur := 68416, net_income_prev := 59604
    cfo_cur := 34529, cfo_prev := -19187
    total_assets_cur := 413606, total_assets_prev := 253195
    long_term_debt_cur := 56180, long_term_debt_prev := 48066
    current_assets_cur := 234976, current_assets_prev := 131251
    current_liabilities_cur := 61259, current_liabilities_prev := 53911
    cogs_cur := 42333, cogs_prev := 51455
    shares_cur := 29317476, shares_prev := 26352614 }

/-- Hardcoded record for SAAB in `get_test_financial_data`
(shares 535.27 and 532.99 million). -/
def saabData : FinancialData :=
  { revenue_cur := 63751, revenue_prev := 51609
    net_income_cur := 4210, net_income_prev := 3443
    cfo_cur := 6732, cfo_prev := 6462
    total_assets_cur := 99823, total_assets_prev := 82759
    long_term_debt_cur := 7128, long_term_debt_prev := 6915
    current_assets_cur := 65402, current_assets_prev := 54997
    current_liabilities_cur := 49715, current_liabilities_prev := 35002
    cogs_cur := 50088, cogs_prev := 40349
    shares_cur := 53527 / 100, shares_prev := 53299 / 100 }

/-- Hardcoded record for BioArctic in `get_test_financial_data`. -/
def bioarcticData : FinancialData :=
  { revenue_cur := 615995, revenue_prev := 228291
    net_income_cur := 229249, net_income_prev := -11179
    cfo_cur := 309694, cfo_prev := -31637
    total_assets_cur := 1186078, total_assets_prev := 858307
    long_term_debt_cur := 14537, long_term_debt_prev := 1182
    current_assets_cur := 1152738, current_assets_prev := 820841
    current_liabilities_cur := 124966, current_liabilities_prev := 70883
    cogs_cur := 367437, cogs_prev := 245961
    shares_cur := 1766, shares_prev := 1763 }

/-- `get_test_financial_data` from `test_data.py`: normalize the name
(`lower().strip()`), match against the recognised name sets, raise
`ValueError` (modelled as `none`) otherwise. -/
def get_test_financial_data (company : String) : Option FinancialData :=
  let c := py_strip (py_lower company)
  if c ∈ ["intellego", "intellego technologies", "intellego technologies ab"] then
    some intellegoData
  else if c ∈ ["saab", "saab ab", "saab b", "saab (b stock)", "saab (b)"] then
    some saabData
  else if c ∈ ["bioarctic", "bioarctic ab", "bioarctic (b stock)", "bioarctic b",
               "bioarctic ab class b"] then
    some bioarcticData
  else
    none

/-- `_get_hardcoded_data` from `fetcher.py`: map known ticker symbols to
company names, then look up the hardcoded table; a `ValueError` from the
lookup is re-raised as the "unsupported company" error (`none`). -/
def get_hardcoded_data (company : String) : Option FinancialData :=
  let company_name :=
    if company = "BIOA-B.ST" then "BioArctic"
    else if company = "SAAB-B.ST" then "SAAB"
    else if company = "INT.ST" then "Intellego Technologies"
    else company
  get_test_financial_data company_name

/-! ## The resolution cascade (`FinancialDataScraper.fetch_financials`) -/

/-- The four scraping sources of `fetch_financials`, in the order of its
`sources` list. -/
inductive Source where
  | stockAnalysis
  | aiPdfParser
  | companyWebsite
  | mfnStorage
  deriving DecidableEq, Repr

/-- The fixed `sources` priority list of `fetch_financials`. -/
def sourcesPriority : List Source :=
  [Source.stockAnalysis, Source.aiPdfParser, Source.companyWebsite, Source.mfnStorage]

/-- What one adapter invocation does: raise an exception, return a
falsy/keyless result, or return a scraped dictionary. -/
inductive AdapterOutcome where
  | raised
  | noData
  | got (data : ScrapedData)

/-- The `for source_name, scraper_func in sources` loop of
`fetch_financials`: walk the priority list, invoke each adapter once,
accept the first result that has `revenue_cur` and (for StockAnalysis
only) passes the quality gate; `break` on acceptance.  Returns the list
of adapters actually invoked and the accepted `(source, data)` pair, if
any. -/
def cascadeLoop (env : Source → AdapterOutcome) :
    List Source → List Source × Option (Source × ScrapedData)
  | [] => ([], none)
  | s :: rest =>
    match env s with
    | AdapterOutcome.got data =>
      if data.revenue_cur.isSome then
        if s = Source.stockAnalysis ∧ ¬ (is_data_sufficient data) then
          let r := cascadeLoop env rest
          (s :: r.1, r.2)
        else
          ([s], some (s, data))
      else
        let r := cascadeLoop env rest
        (s :: r.1, r.2)
    | _ =>
      let r := cascadeLoop env rest
      (s :: r.1, r.2)

/-- Cache key for a company: `fetch_financials` computes
`company_key = company.lower().strip()` and `_get_cache_file` mangles it
into the file name with spaces replaced by underscores. -/
def cache_key (company : String) : String :=
  py_replace_space (py_strip (py_lower company))

/-- Observable outcome of one cache-miss run of `fetch_financials`:
which adapters were invoked, which candidate was accepted, whether the
hardcoded fallback produced the result, what was written to the cache,
and the returned record (`none` models a raised error). -/
structure FetchTrace where
  attempted : List Source
  accepted : Option (Source × ScrapedData)
  usedHardcoded : Bool
  cacheWrite : Option (String × ScrapedData)
  result : Option FinancialData

/-- The cache-miss path of `fetch_financials` (after `company_key` is
computed and the fresh-cache check fails): run the cascade; if nothing
was accepted, return the hardcoded data with no cache write; otherwise
fill missing fields, save to cache, and build the `FinancialData`. -/
def fetch_financials_fresh (env : Source → AdapterOutcome) (company : String) : FetchTrace :=
  let r := cascadeLoop env sourcesPriority
  match r.2 with
  | none =>
    { attempted := r.1, accepted := none, usedHardcoded := true
      cacheWrite := none, result := get_hardcoded_data company }
  | some (s, data) =>
    let filled := fill_missing_data data
    { attempted := r.1, accepted := some (s, data), usedHardcoded := false
      cacheWrite := some (cache_key company, filled)
      result := toFinancialData filled }

/-- `_save_to_cache` writes one entry per company key, overwriting:
apply a trace's cache write to a cache store. -/
def applyCacheWrite (cache : String → Option ScrapedData)
    (write : Option (String × ScrapedData)) : String → Option ScrapedData :=
  match write with
  | none => cache
  | some (k, v) => fun x => if x = k then some v else cache x

/-! ## Concrete inputs used by the witnesses -/

/-- A record whose every field is zero. -/
def zeroRecord : FinancialData :=
  { revenue_cur := 0, revenue_prev := 0, net_income_cur := 0, net_income_prev := 0
    cfo_cur := 0, cfo_prev := 0, total_assets_cur := 0, total_assets_prev := 0
    long_term_debt_cur := 0, long_term_debt_prev := 0
    current_assets_cur := 0, current_assets_prev := 0
    current_liabilities_cur := 0, current_liabilities_prev := 0
    cogs_cur := 0, cogs_prev := 0, shares_cur := 0, shares_prev := 0 }

/-- A record whose asset turnover strictly declines (0.5 after 1)
and whose prior share count is zero. -/
def decliningTurnoverRecord : FinancialData :=
  { zeroRecord with
    revenue_cur := 50
    revenue_prev := 100
    total_assets_cur := 100
    total_assets_prev := 100
    shares_cur := 10
    shares_prev := 0 }

/-! ## Theorems -/

/-- **C4.** The signal deriver is total (in this embedding
`parse_financials` is a total function by construction) and every ratio
it computes — ROA, the leverage ratio, the current ratio, the
share-change ratio, the gross margin and the asset turnover — evaluates
to 0 by the safe-divide convention whenever its denominator is zero. -/
theorem signal_deriver_safe_div_total (raw : FinancialData) :
    (raw.total_assets_cur = 0 →
      roa_cur raw = 0 ∧ ratio_cur raw = 0 ∧ asset_turnover_cur raw = 0) ∧
    (raw.total_assets_prev = 0 →
      roa_prev raw = 0 ∧ ratio_prev raw = 0 ∧ asset_turnover_prev raw = 0) ∧
    (raw.current_liabilities_cur = 0 → current_ratio_cur raw = 0) ∧
    (raw.current_liabilities_prev = 0 → current_ratio_prev raw = 0) ∧
    (raw.shares_prev = 0 → share_change_ratio raw = 0) ∧
    (raw.revenue_cur = 0 → gross_margin_cur raw = 0) ∧
    (raw.revenue_prev = 0 → gross_margin_prev raw = 0) := by
  refine ⟨fun h => ?_, fun h => ?_, fun h => ?_, fun h => ?_, fun h => ?_,
    fun h => ?_, fun h => ?_⟩ <;>
    simp [roa_cur, roa_prev, ratio_cur, ratio_prev, asset_turnover_cur,
      asset_turnover_prev, current_ratio_cur, current_ratio_prev,
      share_change_ratio, gross_margin_cur, gross_margin_prev, safe_div, h]

/-- Witness for C4: the safe-divide convention evaluated on the all-zero
record. -/
theorem signal_deriver_safe_div_total_witness :
    roa_cur zeroRecord = 0 ∧ ratio_cur zeroRecord = 0 ∧
    asset_turnover_cur zeroRecord = 0 ∧ current_ratio_cur zeroRecord = 0 ∧
    share_change_ratio zeroRecord = 0 ∧ gross_margin_cur zeroRecord = 0 := by
  obtain ⟨h1, _, h3, h4, h5, h6, _⟩ := signal_deriver_safe_div_total zeroRecord
  obtain ⟨ha, hb, hc⟩ := h1 rfl
  exact ⟨ha, hb, hc, h3 rfl, h5 rfl, h6 rfl⟩

/-- **C5.** `no_new_shares` holds exactly when the current share count
does not exceed the previous one, or the relative increase
`(shares_cur - shares_prev) / shares_prev` is at most the configured
tolerance (division by zero reading as 0, which is also how `ℚ`
evaluates `x / 0`). -/
theorem no_new_shares_spec (raw : FinancialData) (options : ParseOptions) :
    (parse_financials raw options).no_new_shares = true ↔
      (raw.shares_cur ≤ raw.shares_prev ∨
        (raw.shares_cur - raw.shares_prev) / raw.shares_prev ≤
          options.share_change_threshold) := by
  have hproj : (parse_financials raw options).no_new_shares =
      decide (raw.shares_cur - raw.shares_prev ≤ 0 ∨
        share_change_ratio raw ≤ options.share_change_threshold) := rfl
  rw [hproj, decide_eq_true_eq]
  rcases le_or_lt (raw.shares_cur - raw.shares_prev) 0 with hd | hd
  · simp [hd, sub_nonpos.mp hd]
  · have hcur : ¬ raw.shares_cur ≤ raw.shares_prev := not_le.mpr (by linarith)
    have habs : |raw.shares_cur - raw.shares_prev| =
        raw.shares_cur - raw.shares_prev := abs_of_pos hd
    rcases eq_or_ne raw.shares_prev 0 with hp | hp
    · simp [share_change_ratio, safe_div, hp, hcur, not_le.mpr hd, div_zero]
    · simp [share_change_ratio, safe_div, hp, hcur, not_le.mpr hd, habs]

/-- Witness for C5: the specification of `no_new_shares`, instantiated
on the record with declining turnover and zero previous shares, where
the dilution branch makes the signal true. -/
theorem no_new_shares_spec_witness :
    (parse_financials decliningTurnoverRecord {}).no_new_shares = true :=
  (no_new_shares_spec decliningTurnoverRecord {}).mpr
    (Or.inr (by norm_num [decliningTurnoverRecord, zeroRecord]))

/-- **C10.** When the previous share count is zero and the current one
is positive, the safe-divide convention makes the share-change ratio 0,
so `no_new_shares` is true under any non-negative tolerance despite the
increase. -/
theorem zero_prev_shares_no_new_shares (raw : FinancialData) (options : ParseOptions)
    (hprev : raw.shares_prev = 0) (hcur : 0 < raw.shares_cur)
    (htol : 0 ≤ options.share_change_threshold) :
    share_change_ratio raw = 0 ∧
      (parse_financials raw options).no_new_shares = true := by
  have hratio : share_change_ratio raw = 0 := by
    simp [share_change_ratio, hprev, safe_div]
  refine ⟨hratio, ?_⟩
  have hproj : (parse_financials raw options).no_new_shares =
      decide (raw.shares_cur - raw.shares_prev ≤ 0 ∨
        share_change_ratio raw ≤ options.share_change_threshold) := rfl
  rw [hproj, decide_eq_true_eq]
  exact Or.inr (by rw [hratio]; exact htol)

/-- Witness for C10: shares going from 0 to 10 under tolerance 0 still
counts as no new shares. -/
theorem zero_prev_shares_no_new_shares_witness :
    share_change_ratio decliningTurnoverRecord = 0 ∧
      (parse_financials decliningTurnoverRecord {}).no_new_shares = true :=
  zero_prev_shares_no_new_shares decliningTurnoverRecord {}
    (by norm_num [decliningTurnoverRecord, zeroRecord])
    (by norm_num [decliningTurnoverRecord, zeroRecord])
    (by norm_num)

/-- **C6.** On a record whose computed asset turnover strictly
declined, scoring with `asset_turnover_override = some true` versus the
override absent flips exactly the `asset_turnover_improved` signal,
leaves the other eight signals identical, and raises the aggregate
score by exactly 1. -/
theorem asset_turnover_override_flips_score (raw : FinancialData) (options : ParseOptions)
    (hdecl : asset_turnover_cur raw < asset_turnover_prev raw) :
    (parse_financials raw
        { options with asset_turnover_override := some true }).asset_turnover_improved = true ∧
    (parse_financials raw
        { options with asset_turnover_override := none }).asset_turnover_improved = false ∧
    (parse_financials raw { options with asset_turnover_override := some true }).roa_positive =
      (parse_financials raw { options with asset_turnover_override := none }).roa_positive ∧
    (parse_financials raw { options with asset_turnover_override := some true }).cfo_positive =
      (parse_financials raw { options with asset_turnover_override := none }).cfo_positive ∧
    (parse_financials raw { options with asset_turnover_override := some true }).roa_improved =
      (parse_financials raw { options with asset_turnover_override := none }).roa_improved ∧
    (parse_financials raw { options with asset_turnover_override := some true }).accrual_positive =
      (parse_financials raw { options with asset_turnover_override := none }).accrual_positive ∧
    (parse_financials raw { options with asset_turnover_override := some true }).leverage_decreased =
      (parse_financials raw { options with asset_turnover_override := none }).leverage_decreased ∧
    (parse_financials raw { options with asset_turnover_override := some true }).current_ratio_improved =
      (parse_financials raw { options with asset_turnover_override := none }).current_ratio_improved ∧
    (parse_financials raw { options with asset_turnover_override := some true }).no_new_shares =
      (parse_financials raw { options with asset_turnover_override := none }).no_new_shares ∧
    (parse_financials raw { options with asset_turnover_override := some true }).gross_margin_improved =
      (parse_financials raw { options with asset_turnover_override := none }).gross_margin_improved ∧
    compute_fscore (parse_financials raw { options with asset_turnover_override := some true }) =
      compute_fscore (parse_financials raw { options with asset_turnover_override := none }) + 1 := by
  have hno : decide (asset_turnover_cur raw > asset_turnover_prev raw) = false :=
    decide_eq_false (not_lt.mpr (le_of_lt hdecl))
  refine ⟨rfl, ?_, rfl, rfl, rfl, rfl, rfl, rfl, rfl, rfl, ?_⟩
  · exact hno
  · simp only [compute_fscore, signalValues, parse_financials, hno,
      List.map_cons, List.map_nil, List.sum_cons, List.sum_nil,
      Bool.toNat_false, Bool.toNat_true]
    omega

/-- Witness for C6: the override flip on the record with turnover 0.5
after 1. -/
theorem asset_turnover_override_flips_score_witness :
    compute_fscore (parse_financials decliningTurnoverRecord
        { asset_turnover_override := some true }) =
      compute_fscore (parse_financials decliningTurnoverRecord
        { asset_turnover_override := none }) + 1 :=
  (asset_turnover_override_flips_score decliningTurnoverRecord {}
    (by norm_num [asset_turnover_cur, asset_turnover_prev, safe_div,
      decliningTurnoverRecord, zeroRecord])).2.2.2.2.2.2.2.2.2.2

/-- The sum of booleans as 0/1 values is the number of `true`s. -/
theorem sum_map_toNat_eq_count (l : List Bool) :
    (l.map Bool.toNat).sum = l.count true := by
  induction l with
  | nil => rfl
  | cons b t ih => cases b <;> simp [List.count_cons, ih] <;> omega

/-- **C7.** The aggregate score is the count of true entries of the
nine-signal vector, lies in [0, 9], and is invariant under any
permutation of the signal order. -/
theorem fscore_counts_true_signals (metrics : SignalVector) :
    compute_fscore metrics = (signalValues metrics).count true ∧
    0 ≤ compute_fscore metrics ∧ compute_fscore metrics ≤ 9 ∧
    (∀ l : List Bool, l.Perm (signalValues metrics) →
      (l.map Bool.toNat).sum = compute_fscore metrics) := by
  have hcount : compute_fscore metrics = (signalValues metrics).count true :=
    sum_map_toNat_eq_count _
  refine ⟨hcount, Nat.zero_le _, ?_, ?_⟩
  · rw [hcount]
    calc (signalValues metrics).count true ≤ (signalValues metrics).length :=
          List.count_le_length _ _
      _ = 9 := by simp [signalValues]
  · intro l hl
    rw [sum_map_toNat_eq_count l, hcount]
    exact hl.count_eq true

/-- Witness for C7: summing the reversed signal list of a concrete
vector gives the same score. -/
theorem fscore_counts_true_signals_witness :
    ((signalValues (parse_financials saabData {})).reverse.map Bool.toNat).sum =
      compute_fscore (parse_financials saabData {}) :=
  (fscore_counts_true_signals (parse_financials saabData {})).2.2.2 _
    (List.reverse_perm _)

/-- A candidate with 3 of the 8 critical fields zero (cfo pair and
previous total assets), otherwise plausible. -/
def threeMissingCandidate : ScrapedData :=
  { revenue_cur := some 100, revenue_prev := some 90
    net_income_cur := some 10, net_income_prev := some 8
    cfo_cur := some 0, cfo_prev := some 0
    total_assets_cur := some 50, total_assets_prev := none }

/-- A complete, plausible candidate that passes the quality gate. -/
def plausibleCandidate : ScrapedData :=
  { revenue_cur := some 100, revenue_prev := some 90
    net_income_cur := some 10, net_income_prev := some 8
    cfo_cur := some 5, cfo_prev := some 4
    total_assets_cur := some 50, total_assets_prev := some 45 }

/-- A complete candidate whose current total assets are zero while
revenue is positive. -/
def zeroAssetsCandidate : ScrapedData :=
  { revenue_cur := some 100, revenue_prev := some 90
    net_income_cur := some 10, net_income_prev := some 8
    cfo_cur := some 5, cfo_prev := some 4
    total_assets_cur := some 0, total_assets_prev := some 45 }

/-- A candidate with revenue 5 and net income 50 and every critical
field populated. -/
def unitMismatchCandidate : ScrapedData :=
  { revenue_cur := some 5, revenue_prev := some 4
    net_income_cur := some 50, net_income_prev := some 40
    cfo_cur := some 1, cfo_prev := some 1
    total_assets_cur := some 10, total_assets_prev := some 9 }

/-- A candidate with positive assets below 10% of positive revenue. -/
def tinyAssetsCandidate : ScrapedData :=
  { revenue_cur := some 100, revenue_prev := some 90
    net_income_cur := some 10, net_income_prev := some 8
    cfo_cur := some 5, cfo_prev := some 4
    total_assets_cur := some 5, total_assets_prev := some 45 }

/-- **C2.** The quality gate rejects whenever more than 2 of the 8
critical fields are zero/missing and, whenever at most 2 are
zero/missing, accepts exactly when the three sanity checks all pass. -/
theorem quality_gate_critical_field_rule (data : ScrapedData) :
    (missing_critical data > 2 → is_data_sufficient data = false) ∧
    (missing_critical data ≤ 2 →
      (is_data_sufficient data = true ↔
        (small_revenue_mismatch data = false ∧ assets_too_small data = false ∧
          missing_cfo_large_company data = false))) := by
  constructor
  · intro h
    simp [is_data_sufficient, h]
  · intro h
    have h2 : ¬ missing_critical data > 2 := not_lt.mpr h
    cases hs : small_revenue_mismatch data <;>
      cases ha : assets_too_small data <;>
        cases hc : missing_cfo_large_company data <;>
          simp [is_data_sufficient, h2, hs, ha, hc]

/-- Witness for C2: three zero/missing critical fields are rejected;
with all eight present and nonzero, acceptance coincides with the
sanity checks. -/
theorem quality_gate_critical_field_rule_witness :
    is_data_sufficient threeMissingCandidate = false ∧
      (is_data_sufficient plausibleCandidate = true ↔
        (small_revenue_mismatch plausibleCandidate = false ∧
          assets_too_small plausibleCandidate = false ∧
          missing_cfo_large_company plausibleCandidate = false)) :=
  ⟨(quality_gate_critical_field_rule threeMissingCandidate).1 (by
      norm_num [missing_critical, criticalFieldValues, threeMissingCandidate,
        List.countP_cons, List.countP_nil]),
   (quality_gate_critical_field_rule plausibleCandidate).2 (by
      norm_num [missing_critical, criticalFieldValues, plausibleCandidate,
        List.countP_cons, List.countP_nil])⟩

/-- **C8.** A candidate with `revenue_cur = 5` and `net_income_cur = 50`
is rejected by the quality gate no matter what the other fields hold:
its small revenue with more than 2× net income trips the
unit-mismatch sanity check, and the only other path out of the gate is
the critical-field rejection. -/
theorem small_revenue_mismatch_rejected (data : ScrapedData)
    (hrev : data.revenue_cur = some 5) (hni : data.net_income_cur = some 50) :
    is_data_sufficient data = false := by
  have hs : small_revenue_mismatch data = true := by
    simp [small_revenue_mismatch, hrev, hni]
    norm_num
  unfold is_data_sufficient
  split
  · rfl
  · simp [hs]

/-- Witness for C8: the gate rejects the concrete revenue-5 /
net-income-50 candidate. -/
theorem small_revenue_mismatch_rejected_witness :
    is_data_sufficient unitMismatchCandidate = false :=
  small_revenue_mismatch_rejected unitMismatchCandidate rfl rfl

/-- **C9, counterexample.** The claim "the gate rejects every candidate
whose `total_assets_cur` is less than 10% of positive revenue" is false
on the code: the assets sanity check additionally requires
`total_assets_cur > 0`, so a candidate with zero current total assets
(certainly below 10% of its positive revenue) is accepted. -/
theorem assets_below_tenth_accepted_counterexample :
    0 < zeroAssetsCandidate.revenue_cur.getD 0 ∧
    zeroAssetsCandidate.total_assets_cur.getD 0 <
      zeroAssetsCandidate.revenue_cur.getD 0 * (1 / 10) ∧
    is_data_sufficient zeroAssetsCandidate = true := by
  refine ⟨by norm_num [zeroAssetsCandidate], by norm_num [zeroAssetsCandidate], ?_⟩
  norm_num [is_data_sufficient, missing_critical, criticalFieldValues,
    small_revenue_mismatch, assets_too_small, missing_cfo_large_company,
    zeroAssetsCandidate, List.countP_cons, List.countP_nil]

/-- **C9, amended.** Any single firing sanity check alone rejects the
candidate, independent of the critical-field count; in particular the
gate rejects every candidate whose current total assets are positive
yet less than 10% of its positive revenue.  (A zero or negative
`total_assets_cur` does not trip the assets check; a zero only counts
toward the critical-field tally.) -/
theorem sanity_check_rejections (data : ScrapedData) :
    (small_revenue_mismatch data = true → is_data_sufficient data = false) ∧
    (assets_too_small data = true → is_data_sufficient data = false) ∧
    (missing_cfo_large_company data = true → is_data_sufficient data = false) ∧
    (0 < data.revenue_cur.getD 0 → 0 < data.total_assets_cur.getD 0 →
      data.total_assets_cur.getD 0 < data.revenue_cur.getD 0 * (1 / 10) →
      is_data_sufficient data = false) := by
  refine ⟨?_, ?_, ?_, ?_⟩
  · intro hs
    unfold is_data_sufficient
    split
    · rfl
    · simp [hs]
  · intro ha
    unfold is_data_sufficient
    split
    · rfl
    · cases hs : small_revenue_mismatch data <;> simp [hs, ha]
  · intro hc
    unfold is_data_sufficient
    split
    · rfl
    · cases hs : small_revenue_mismatch data <;>
        cases ha : assets_too_small data <;> simp [hs, ha, hc]
  · intro h1 h2 h3
    have ha : assets_too_small data = true := by
      simp only [assets_too_small]
      exact decide_eq_true ⟨h1, h2, h3⟩
    unfold is_data_sufficient
    split
    · rfl
    · cases hs : small_revenue_mismatch data <;> simp [hs, ha]

/-- Witness for C9 (amended): positive assets of 5 against revenue 100
are rejected by the assets sanity check alone. -/
theorem sanity_check_rejections_witness :
    is_data_sufficient tinyAssetsCandidate = false :=
  (sanity_check_rejections tinyAssetsCandidate).2.2.2
    (by norm_num [tinyAssetsCandidate])
    (by norm_num [tinyAssetsCandidate])
    (by norm_num [tinyAssetsCandidate])

/-- An environment where only the AI PDF parser returns data. -/
def sampleEnv : Source → AdapterOutcome := fun s =>
  match s with
  | Source.aiPdfParser => AdapterOutcome.got plausibleCandidate
  | _ => AdapterOutcome.raised

/-- The adapters actually invoked form an in-order prefix of the
priority list. -/
theorem cascadeLoop_attempted_take (env : Source → AdapterOutcome) :
    ∀ l : List Source, ∃ n, (cascadeLoop env l).1 = l.take n := by
  intro l
  induction l with
  | nil => exact ⟨0, rfl⟩
  | cons s rest ih =>
    obtain ⟨n, hn⟩ := ih
    cases he : env s with
    | got data =>
      by_cases h1 : data.revenue_cur.isSome
      · by_cases h2 : s = Source.stockAnalysis ∧ is_data_sufficient data = false
        · obtain ⟨rfl, hgate⟩ := h2
          exact ⟨n + 1, by simp [cascadeLoop, he, h1, hgate, hn]⟩
        · exact ⟨1, by simp [cascadeLoop, he, h1, h2]⟩
      · exact ⟨n + 1, by simp [cascadeLoop, he, h1, hn]⟩
    | raised => exact ⟨n + 1, by simp [cascadeLoop, he, hn]⟩
    | noData => exact ⟨n + 1, by simp [cascadeLoop, he, hn]⟩

/-- An accepted source was on the adapter list. -/
theorem cascadeLoop_accept_mem (env : Source → AdapterOutcome) :
    ∀ l : List Source, ∀ s data, (cascadeLoop env l).2 = some (s, data) → s ∈ l := by
  intro l
  induction l with
  | nil => intro s data h; simp [cascadeLoop] at h
  | cons s₀ rest ih =>
    intro s data h
    cases he : env s₀ with
    | got d =>
      by_cases h1 : d.revenue_cur.isSome
      · by_cases h2 : s₀ = Source.stockAnalysis ∧ ¬ is_data_sufficient d
        · simp only [cascadeLoop, he, if_pos h1, if_pos h2] at h
          exact List.mem_cons_of_mem s₀ (ih s data h)
        · simp only [cascadeLoop, he, if_pos h1, if_neg h2, Option.some.injEq,
            Prod.mk.injEq] at h
          obtain ⟨rfl, rfl⟩ := h
          exact List.mem_cons_self _ _
      · simp only [cascadeLoop, he, if_neg h1] at h
        exact List.mem_cons_of_mem s₀ (ih s data h)
    | raised =>
      simp only [cascadeLoop, he] at h
      exact List.mem_cons_of_mem s₀ (ih s data h)
    | noData =>
      simp only [cascadeLoop, he] at h
      exact List.mem_cons_of_mem s₀ (ih s data h)

/-- When no adapter's record is accepted, every adapter on the list was
invoked. -/
theorem cascadeLoop_none_attempted (env : Source → AdapterOutcome) :
    ∀ l : List Source, (cascadeLoop env l).2 = none → (cascadeLoop env l).1 = l := by
  intro l
  induction l with
  | nil => intro _; rfl
  | cons s₀ rest ih =>
    intro h
    cases he : env s₀ with
    | got d =>
      by_cases h1 : d.revenue_cur.isSome
      · by_cases h2 : s₀ = Source.stockAnalysis ∧ is_data_sufficient d = false
        · obtain ⟨rfl, hgate⟩ := h2
          simp only [cascadeLoop, he, if_pos h1] at h ⊢
          simp only [hgate] at h ⊢
          simp_all [ih]
        · simp only [cascadeLoop, he, if_pos h1] at h
          rw [if_neg] at h
          · simp at h
          · simpa using h2
      · simp only [cascadeLoop, he, if_neg h1] at h ⊢
        simp [ih h]
    | raised =>
      simp only [cascadeLoop, he] at h ⊢
      simp [ih h]
    | noData =>
      simp only [cascadeLoop, he] at h ⊢
      simp [ih h]

/-- When the cascade accepts at source `s`, the invoked adapters are
exactly the priority-order strict predecessors of `s` followed by `s`
itself. -/
theorem cascadeLoop_accept_attempted (env : Source → AdapterOutcome) :
    ∀ l : List Source, ∀ s data, l.Nodup → (cascadeLoop env l).2 = some (s, data) →
      (cascadeLoop env l).1 = l.takeWhile (fun x => decide (x ≠ s)) ++ [s] := by
  intro l
  induction l with
  | nil => intro s data _ h; simp [cascadeLoop] at h
  | cons s₀ rest ih =>
    intro s data hnd h
    have hs₀ : s₀ ∉ rest := (List.nodup_cons.mp hnd).1
    have hndr : rest.Nodup := (List.nodup_cons.mp hnd).2
    cases he : env s₀ with
    | got d =>
      by_cases h1 : d.revenue_cur.isSome
      · by_cases h2 : s₀ = Source.stockAnalysis ∧ is_data_sufficient d = false
        · obtain ⟨rfl, hgate⟩ := h2
          simp only [cascadeLoop, he, if_pos h1] at h ⊢
          rw [if_pos (show True ∧ ¬ is_data_sufficient d = true
            from ⟨trivial, by simp [hgate]⟩)] at h ⊢
          have hmem : s ∈ rest := cascadeLoop_accept_mem env rest s data h
          have hne : Source.stockAnalysis ≠ s := fun hEq => hs₀ (hEq ▸ hmem)
          rw [List.takeWhile_cons, if_pos (by simpa using hne)]
          simp [ih s data hndr h]
        · simp only [cascadeLoop, he, if_pos h1] at h ⊢
          rw [if_neg (by simpa using h2)] at h ⊢
          simp only [Option.some.injEq, Prod.mk.injEq] at h
          obtain ⟨rfl, rfl⟩ := h
          rw [List.takeWhile_cons]
          simp
      · simp only [cascadeLoop, he, if_neg h1] at h ⊢
        have hmem : s ∈ rest := cascadeLoop_accept_mem env rest s data h
        have hne : s₀ ≠ s := fun hEq => hs₀ (hEq ▸ hmem)
        rw [List.takeWhile_cons, if_pos (by simpa using hne)]
        simp [ih s data hndr h]
    | raised =>
      simp only [cascadeLoop, he] at h ⊢
      have hmem : s ∈ rest := cascadeLoop_accept_mem env rest s data h
      have hne : s₀ ≠ s := fun hEq => hs₀ (hEq ▸ hmem)
      rw [List.takeWhile_cons, if_pos (by simpa using hne)]
      simp [ih s data hndr h]
    | noData =>
      simp only [cascadeLoop, he] at h ⊢
      have hmem : s ∈ rest := cascadeLoop_accept_mem env rest s data h
      have hne : s₀ ≠ s := fun hEq => hs₀ (hEq ▸ hmem)
      rw [List.takeWhile_cons, if_pos (by simpa using hne)]
      simp [ih s data hndr h]

/-- **C1.** `fetch_financials` attempts the adapters in the fixed
priority order (StockAnalysis, AI PDF parser, company website, MFN
archive search, and finally the hardcoded table): the invoked scrapers
always form an in-order prefix of the priority list, no adapter is
invoked twice within one resolution (so a gate-rejected adapter is
never re-attempted), once a record is accepted the invoked adapters
are exactly the accepted source's strict priority predecessors followed
by that source — no later-priority adapter, nor the hardcoded table,
is reached — and the hardcoded table is used only after all four
scrapers were invoked without acceptance. -/
theorem cascade_priority_order (env : Source → AdapterOutcome) (company : String) :
    (∃ n, (fetch_financials_fresh env company).attempted = sourcesPriority.take n) ∧
    (fetch_financials_fresh env company).attempted.Nodup ∧
    (∀ s data, (fetch_financials_fresh env company).accepted = some (s, data) →
      (fetch_financials_fresh env company).usedHardcoded = false ∧
      (fetch_financials_fresh env company).attempted =
        sourcesPriority.takeWhile (fun x => decide (x ≠ s)) ++ [s]) ∧
    ((fetch_financials_fresh env company).accepted = none →
      (fetch_financials_fresh env company).usedHardcoded = true ∧
      (fetch_financials_fresh env company).attempted = sourcesPriority) := by
  have hnodup : sourcesPriority.Nodup := by decide
  obtain ⟨n, hn⟩ := cascadeLoop_attempted_take env sourcesPriority
  cases hacc : (cascadeLoop env sourcesPriority).2 with
  | none =>
    have hfull := cascadeLoop_none_attempted env sourcesPriority hacc
    have hf : fetch_financials_fresh env company =
        { attempted := (cascadeLoop env sourcesPriority).1, accepted := none
          usedHardcoded := true, cacheWrite := none
          result := get_hardcoded_data company } := by
      simp [fetch_financials_fresh, hacc]
    rw [hf]
    refine ⟨⟨sourcesPriority.length, by simp [hfull]⟩, ?_, ?_, ?_⟩
    · simpa [hfull] using hnodup
    · intro s data hsd
      simp at hsd
    · intro _
      exact ⟨rfl, hfull⟩
  | some sd =>
    obtain ⟨s₀, d₀⟩ := sd
    have hf : fetch_financials_fresh env company =
        { attempted := (cascadeLoop env sourcesPriority).1, accepted := some (s₀, d₀)
          usedHardcoded := false
          cacheWrite := some (cache_key company, fill_missing_data d₀)
          result := toFinancialData (fill_missing_data d₀) } := by
      simp [fetch_financials_fresh, hacc]
    rw [hf]
    refine ⟨⟨n, hn⟩, ?_, ?_, ?_⟩
    · show (cascadeLoop env sourcesPriority).1.Nodup
      rw [hn]
      exact List.Nodup.sublist (List.take_sublist n sourcesPriority) hnodup
    · intro s data hsd
      have hsd2 : some (s₀, d₀) = some (s, data) := hsd
      simp only [Option.some.injEq, Prod.mk.injEq] at hsd2
      obtain ⟨rfl, rfl⟩ := hsd2
      exact ⟨rfl, cascadeLoop_accept_attempted env sourcesPriority s₀ d₀ hnodup hacc⟩
    · intro hnone
      exact Option.noConfusion (show some (s₀, d₀) = none from hnone)

/-- Witness for C1: with StockAnalysis raising and the AI PDF parser
returning a candidate, acceptance happens at the AI PDF parser, the
hardcoded table is unused, and exactly the first two adapters ran. -/
theorem cascade_priority_order_witness :
    (fetch_financials_fresh sampleEnv "saab").usedHardcoded = false ∧
    (fetch_financials_fresh sampleEnv "saab").attempted =
      sourcesPriority.takeWhile (fun x => decide (x ≠ Source.aiPdfParser)) ++
        [Source.aiPdfParser] :=
  (cascade_priority_order sampleEnv "saab").2.2.1 Source.aiPdfParser
    plausibleCandidate rfl

/-- **C3, counterexample.** The claim "whenever the cascade accepts a
record, including from the hardcoded table, it is written to the cache"
is false on the code: when every scraper fails for SAAB, the hardcoded
record is returned to the caller with no cache write at all. -/
theorem hardcoded_result_not_cached :
    (fetch_financials_fresh (fun _ => AdapterOutcome.raised) "SAAB").usedHardcoded = true ∧
    (fetch_financials_fresh (fun _ => AdapterOutcome.raised) "SAAB").result = some saabData ∧
    (fetch_financials_fresh (fun _ => AdapterOutcome.raised) "SAAB").cacheWrite = none :=
  ⟨rfl, rfl, rfl⟩

/-- **C3, amended.** Whenever the cascade accepts a record from one of
the four scraping adapters, the default-filled record is written to the
cache under the normalized company key — overwriting whatever entry was
there — before the `FinancialData` result is built and returned; a
record served by the hardcoded fallback is returned without any cache
write. -/
theorem accepted_record_cached_before_return (env : Source → AdapterOutcome)
    (company : String) :
    (∀ s data, (fetch_financials_fresh env company).accepted = some (s, data) →
      (fetch_financials_fresh env company).cacheWrite =
        some (cache_key company, fill_missing_data data) ∧
      (∀ cache : String → Option ScrapedData,
        applyCacheWrite cache (fetch_financials_fresh env company).cacheWrite
          (cache_key company) = some (fill_missing_data data)) ∧
      (fetch_financials_fresh env company).result =
        toFinancialData (fill_missing_data data)) ∧
    ((fetch_financials_fresh env company).accepted = none →
      (fetch_financials_fresh env company).cacheWrite = none) := by
  cases hacc : (cascadeLoop env sourcesPriority).2 with
  | none =>
    have hf : fetch_financials_fresh env company =
        { attempted := (cascadeLoop env sourcesPriority).1, accepted := none
          usedHardcoded := true, cacheWrite := none
          result := get_hardcoded_data company } := by
      simp [fetch_financials_fresh, hacc]
    rw [hf]
    exact ⟨fun s data hsd => by simp at hsd, fun _ => rfl⟩
  | some sd =>
    obtain ⟨s₀, d₀⟩ := sd
    have hf : fetch_financials_fresh env company =
        { attempted := (cascadeLoop env sourcesPriority).1, accepted := some (s₀, d₀)
          usedHardcoded := false
          cacheWrite := some (cache_key company, fill_missing_data d₀)
          result := toFinancialData (fill_missing_data d₀) } := by
      simp [fetch_financials_fresh, hacc]
    rw [hf]
    refine ⟨fun s data hsd => ?_, fun hnone => by simp at hnone⟩
    simp only [Option.some.injEq, Prod.mk.injEq] at hsd
    obtain ⟨rfl, rfl⟩ := hsd
    exact ⟨rfl, fun cache => by simp [applyCacheWrite], rfl⟩

/-- Witness for C3 (amended): the accepted AI-PDF candidate is filled
and written under the company key, overwriting an empty cache. -/
theorem accepted_record_cached_before_return_witness :
    (fetch_financials_fresh sampleEnv "saab").cacheWrite =
      some (cache_key "saab", fill_missing_data plausibleCandidate) ∧
    applyCacheWrite (fun _ => none) (fetch_financials_fresh sampleEnv "saab").cacheWrite
      (cache_key "saab") = some (fill_missing_data plausibleCandidate) :=
  ⟨((accepted_record_cached_before_return sampleEnv "saab").1 Source.aiPdfParser
      plausibleCandidate rfl).1,
   ((accepted_record_cached_before_return sampleEnv "saab").1 Source.aiPdfParser
      plausibleCandidate rfl).2.1 (fun _ => none)⟩

end Screener


